import Mathlib

/-!
Verification of the move-site Remote Migration & Backup Engine.

This file gives a shallow embedding of the engine's core logic:

* backup naming and restore classification (`src/commands/backup.ts`),
* the environment resolver (`src/config/resolver.ts`),
* batch file upload (`src/transfer/ssh.ts`),
* ownership reconciliation, the archive upload phase and the database
  migration (`src/commands/upload.ts`, `src/commands/db.ts`).

Remote command execution is represented by an oracle `run : String → ExecResult`;
each modelled operation returns the ordered trace of remote commands it issued
together with an outcome, so that control-flow properties (what runs after a
failure, what is never run) are provable.  Strings are Lean `String`s; a few
JavaScript string primitives (`trim`, `split`, `includes`, truthiness of
strings, `Date.prototype.toISOString`) are modelled from their documented
semantics, each marked in its doc comment.
-/

namespace MoveSite

/-- A single-quote character, written via its code point so SQL fragments can
embed quotes by concatenation. -/
def sq : String := String.mk [Char.ofNat 39]

/-- JavaScript string truthiness fallback `a || b`: the empty string is falsy. -/
def jsOr (a b : String) : String := if a = "" then b else a

/-- An optional string field read the JavaScript way: `undefined` behaves as `""`. -/
def optStr (o : Option String) : String := o.getD ""

/-- Modelled from JavaScript `String.prototype.includes`: substring containment. -/
def jsIncludes (s sub : String) : Bool := decide (sub.data <:+: s.data)

/-- Modelled from JavaScript `String.prototype.trim`: drop leading and trailing
whitespace. -/
def jsTrim (l : List Char) : List Char :=
  ((l.dropWhile Char.isWhitespace).reverse.dropWhile Char.isWhitespace).reverse

/-- Modelled from JavaScript `String.prototype.split` with a one-character
separator. -/
def splitOnChar (c : Char) : List Char → List (List Char)
  | [] => [[]]
  | x :: xs =>
    match splitOnChar c xs with
    | [] => [[]]
    | h :: t => if x = c then [] :: h :: t else (x :: h) :: t

/-- `stdout.trim().split(newline)` as used on every `SHOW TABLES` result. -/
def splitLinesJS (s : String) : List String :=
  (splitOnChar (Char.ofNat 10) (jsTrim s.data)).map String.mk

/-- `s.trim()` on a `String`. -/
def jsTrimStr (s : String) : String := String.mk (jsTrim s.data)

/-- Modelled from JavaScript `String.prototype.replace` with a one-character
pattern: only the first occurrence is replaced. -/
def replaceFirstChar (c r : Char) : List Char → List Char
  | [] => []
  | x :: xs => if x = c then r :: xs else x :: replaceFirstChar c r xs

/-- JavaScript `String.prototype.slice(a, b)` for `0 ≤ a ≤ b ≤ length`. -/
def jsSlice (s : String) (a b : Nat) : String := String.mk ((s.data.drop a).take (b - a))

/-- The decimal digit character of `n % 10`. -/
def digitChar (n : Nat) : Char := Char.ofNat (48 + n % 10)

/-- Two decimal digits, as printed by `toISOString` for an in-range field. -/
def pad2L (n : Nat) : List Char := [digitChar (n / 10), digitChar (n % 10)]

/-- Three decimal digits (milliseconds field of `toISOString`). -/
def pad3L (n : Nat) : List Char := [digitChar (n / 100), digitChar (n / 10), digitChar (n % 10)]

/-- Four decimal digits (year field of `toISOString` for years 0–9999). -/
def pad4L (n : Nat) : List Char :=
  [digitChar (n / 1000), digitChar (n / 100), digitChar (n / 10), digitChar (n % 10)]

/-- A JavaScript `Date` value, represented by its UTC calendar fields (the
fields `toISOString` prints). -/
structure JSDate where
  year : Nat
  month : Nat
  day : Nat
  hour : Nat
  minute : Nat
  second : Nat
  ms : Nat
deriving DecidableEq

/-- Field ranges of a `Date` whose `toISOString` uses the plain
`YYYY-MM-DDTHH:mm:ss.sssZ` format (ECMA-262 uses an expanded ±YYYYYY year
format outside 0–9999; every present-day clock reading is in range). -/
def JSDate.Valid (d : JSDate) : Prop :=
  d.year ≤ 9999 ∧ 1 ≤ d.month ∧ d.month ≤ 12 ∧ 1 ≤ d.day ∧ d.day ≤ 31 ∧
    d.hour ≤ 23 ∧ d.minute ≤ 59 ∧ d.second ≤ 59 ∧ d.ms ≤ 999

instance (d : JSDate) : Decidable ( JSDate.Valid d) := by
  unfold JSDate.Valid
  infer_instance

/-- Modelled from ECMA-262 `Date.prototype.toISOString` (UTC, format
`YYYY-MM-DDTHH:mm:ss.sssZ`). -/
def JSDate.toISOString (d : JSDate) : String :=
  String.mk (pad4L d.year ++ '-' :: pad2L d.month ++ '-' :: pad2L d.day ++
    'T' :: pad2L d.hour ++ ':' :: pad2L d.minute ++ ':' :: pad2L d.second ++
    '.' :: pad3L d.ms ++ ['Z'])

/-- Modelled from Howard Hinnant's `days_from_civil` (the civil calendar day
number of 1970-01-01 is 0); used to place a `Date`'s UTC fields on the epoch
timeline. -/
def daysFromCivil (date : JSDate) : Int :=
  let y : Int := (date.year : Int) - (if date.month ≤ 2 then 1 else 0)
  let m : Int := date.month
  let d : Int := date.day
  let era : Int := y / 400
  let yoe : Int := y - era * 400
  let doy : Int := (153 * (m + (if m > 2 then -3 else 9)) + 2) / 5 + d - 1
  let doe : Int := yoe * 365 + yoe / 4 - yoe / 100 + doy
  era * 146097 + doe - 719468

/-- Seconds since the epoch of a `Date`'s UTC fields (millisecond part dropped). -/
def epochSeconds (d : JSDate) : Int :=
  86400 * daysFromCivil d + 3600 * (d.hour : Int) + 60 * (d.minute : Int) + (d.second : Int)

/-- The UTC minute an instant falls in, as a count of minutes since the epoch. -/
def utcMinuteIndex (d : JSDate) : Int :=
  1440 * daysFromCivil d + 60 * (d.hour : Int) + (d.minute : Int)

/-- The local-time minute an instant falls in, for a fixed UTC offset given in
seconds (local wall-clock time is UTC time plus the offset). -/
def localMinuteIndex (offsetSeconds : Int) (d : JSDate) : Int :=
  (epochSeconds d + offsetSeconds) / 60

/-- From `src/commands/backup.ts` (`generateBackupName`): timestamped archive
name `YYYY-MM-DD-HH-mm-<type>.tar.gz`, the date and time sliced out of
`now.toISOString()`. -/
def generateBackupName (ty : String) (now : JSDate) : String :=
  let date := jsSlice ( JSDate.toISOString now) 0 10
  let time := String.mk (replaceFirstChar ':' '-' (jsSlice ( JSDate.toISOString now) 11 16).data)
  date ++ "-" ++ time ++ "-" ++ ty ++ ".tar.gz"

/-- The spec's backup-name pattern
`^\d-4-\d2-\d2-\d2-\d2-<category>\.(tar\.gz|zip)$` read literally: four digit
groups of the stated widths joined by dashes, then the category, then one of
the two extensions. -/
def MatchesBackupNamePattern (category : String) (name : String) : Prop :=
  ∃ yy mo dd hh mi : List Char,
    yy.length = 4 ∧ mo.length = 2 ∧ dd.length = 2 ∧ hh.length = 2 ∧ mi.length = 2 ∧
    (∀ c ∈ yy ++ mo ++ dd ++ hh ++ mi, c.isDigit = true) ∧
    (name.data =
        yy ++ '-' :: mo ++ '-' :: dd ++ '-' :: hh ++ '-' :: mi ++ '-' ::
          category.data ++ (".tar.gz").data ∨
      name.data =
        yy ++ '-' :: mo ++ '-' :: dd ++ '-' :: hh ++ '-' :: mi ++ '-' ::
          category.data ++ (".zip").data)

/-- Restore dispatch target. -/
inductive RestorePath where
  | database
  | files
deriving DecidableEq

/-- From `src/commands/backup.ts` (`restoreBackup`):
`const isDatabase = backup.name.includes("-database.")` selects the restore path. -/
def classifyRestore (name : String) : RestorePath :=
  if jsIncludes name "-database." then .database else .files

/-- Database connection settings (`DatabaseConfig` in `src/types/index.ts`);
the field `tablePfx` is `tablePrefix` in the source. -/
structure DatabaseConfig where
  host : String := ""
  port : Option Nat := none
  socket : Option String := none
  name : String := ""
  user : String := ""
  password : String := ""
  tablePfx : Option String := none
deriving DecidableEq

/-- Local development app settings (`localApp` in the source). -/
structure LocalApp where
  shellScript : Option String := none
  mysqlPath : Option String := none
  mysqldumpPath : Option String := none
deriving DecidableEq

/-- One environment entry as the resolver and the migration read it: the
`type` (kind), `url`, `remotePath`, SSH presence and file-owner settings, and
the optional database / local-app descriptors. -/
structure EnvironmentConfig where
  type : String := ""
  url : String := ""
  remotePath : String := ""
  hasSSH : Bool := false
  sshFilesOwner : Option String := none
  sshFilesGroup : Option String := none
  database : Option DatabaseConfig := none
  localApp : Option LocalApp := none
deriving DecidableEq

/-- Lowercasing as JavaScript `toLowerCase` acts on ASCII identifiers. -/
def toLowerString (s : String) : String := String.mk (s.data.map Char.toLower)

/-- Outcome of `resolveEnvironment` in `src/config/resolver.ts`. `resolved d b`
returns domain `d`, with `b = true` exactly when the visible `Using d` notice
is printed; `notFound` carries the printed list of (domain, kind) pairs;
`selector` is the interactive multi-match prompt over the candidate domains. -/
inductive ResolveResult where
  | noEnvironments
  | resolved (domain : String) (usedNotice : Bool)
  | notFound (available : List (String × String))
  | selector (candidates : List String)
deriving DecidableEq

/-- JavaScript object property lookup `environments[identifier]`: the
configuration object maps each domain key to its environment. -/
def lookupEnv (environments : List (String × EnvironmentConfig)) (k : String) :
    Option EnvironmentConfig :=
  (environments.find? (fun p => p.1 = k)).map (fun p => p.2)

/-- Step 2 of the resolver: environments whose kind equals the identifier
case-insensitively (`env.type && env.type.toLowerCase() === lowerIdentifier`). -/
def typeMatches (identifier : String) (environments : List (String × EnvironmentConfig)) :
    List (String × EnvironmentConfig) :=
  environments.filter
    (fun p => (p.2.type != "") && (toLowerString p.2.type == toLowerString identifier))

/-- Step 3 of the resolver: domains that contain the identifier
case-insensitively (`lowerDomain.includes(lowerIdentifier)`). -/
def fuzzyMatches (identifier : String) (environments : List (String × EnvironmentConfig)) :
    List (String × EnvironmentConfig) :=
  environments.filter (fun p => jsIncludes (toLowerString p.1) (toLowerString identifier))

/-- From `src/config/resolver.ts` (`resolveEnvironment`): exact key match
first, then kind match, then substring match, then the zero/one/many split. -/
def resolveEnvironment (identifier : String)
    (environments : List (String × EnvironmentConfig)) : ResolveResult :=
  if environments.isEmpty then .noEnvironments
  else if (lookupEnv environments identifier).isSome then .resolved identifier false
  else
    let ms := typeMatches identifier environments
    let ms := if ms.isEmpty then fuzzyMatches identifier environments else ms
    match ms with
    | [] => .notFound (environments.map (fun p => (p.1, p.2.type)))
    | [m] => .resolved m.1 true
    | m1 :: m2 :: rest => .selector ((m1 :: m2 :: rest).map (fun p => p.1))

/-- A file to transfer (`FileInfo` in `src/types/index.ts`). -/
structure FileInfo where
  absolutePath : String := ""
  relativePath : String := ""
  size : Nat := 0
deriving DecidableEq

/-- Result of a batch transfer (`TransferResult` in `src/types/index.ts`). -/
structure TransferResult where
  completed : Nat
  total : Nat
  errors : List (String × String)
deriving DecidableEq

/-- The loop body of `SSHTransfer.uploadFiles`: per-file upload attempts are
driven by an oracle (`none` = success, `some msg` = the thrown error's
message); a failure appends to `errors`, a success bumps `completed`. -/
def uploadFilesLoop (upload : FileInfo → Option String) :
    List FileInfo → Nat → List (String × String) → Nat × List (String × String)
  | [], completed, errors => (completed, errors)
  | f :: fs, completed, errors =>
    match upload f with
    | none => uploadFilesLoop upload fs (completed + 1) errors
    | some msg => uploadFilesLoop upload fs completed (errors ++ [(f.relativePath, msg)])

/-- From `src/transfer/ssh.ts` (`SSHTransfer.uploadFiles`): iterate over the
files, catching every per-file error, and return the tallies. -/
def uploadFiles (upload : FileInfo → Option String) (files : List FileInfo) : TransferResult :=
  let r := uploadFilesLoop upload files 0 []
  { completed := r.1, total := files.length, errors := r.2 }

/-- One entry of the remote file tree: its depth below the destination root
(the root itself has depth 0) and its current owner. -/
structure RemoteFile where
  depth : Nat
  owner : String
deriving DecidableEq

/-- The remote file tree under the destination root. -/
structure RemoteFS where
  files : List RemoteFile
deriving DecidableEq

/-- The ownership probe `find ROOT -mindepth 1 ! -user OWNER | head -1`,
modelled from `find` semantics: its stdout is nonempty exactly when some entry
at depth ≥ 1 has a different owner. -/
def probeWrongOwner (owner : String) (fs : RemoteFS) : Bool :=
  fs.files.any (fun f => decide (1 ≤ f.depth) && (f.owner != owner))

/-- The correction `find ROOT -mindepth 1 -exec chown OWNER:GROUP ... +`,
modelled from `find`/`chown` semantics: every entry at depth ≥ 1 becomes owned
by `owner`; the root entry (depth 0) is untouched. -/
def applyChown (owner : String) (fs : RemoteFS) : RemoteFS :=
  ⟨fs.files.map (fun f => if 1 ≤ f.depth then { f with owner := owner } else f)⟩

/-- From `src/commands/upload.ts` / `restoreBackup`: probe first; only when a
mismatched file exists issue the single chown command (whose success is the
oracle `chownSucceeds`); returns whether chown was issued and the new state. -/
def reconcileOwnership (chownSucceeds : Bool) (owner : String) (fs : RemoteFS) :
    Bool × RemoteFS :=
  if probeWrongOwner owner fs then
    (true, if chownSucceeds then applyChown owner fs else fs)
  else (false, fs)

/-- The probe command string issued by the reconciliation. -/
def checkOwnerCmd (remotePath owner : String) : String :=
  "find \"" ++ remotePath ++ "\" -mindepth 1 ! -user " ++ owner ++ " 2>/dev/null | head -1"

/-- The correction command string issued by the reconciliation. -/
def chownOwnerCmd (remotePath owner group : String) : String :=
  "find \"" ++ remotePath ++ "\" -mindepth 1 -exec chown " ++ owner ++ ":" ++ group ++
    " \x7b\x7d + 2>&1"

/-- Captured result of one remote command (`SSHTransfer.exec`). -/
structure ExecResult where
  code : Int := 0
  stdout : String := ""
  stderr : String := ""
deriving DecidableEq

/-- The shared `mysql -h "H" -u "U" -p"P"` auth fragment of the remote mysql
command templates in `uploadDatabase` and `runBackup`. -/
def mysqlTargetAuth (db : DatabaseConfig) : String :=
  "mysql -h \"" ++ db.host ++ "\" -u \"" ++ db.user ++ "\" -p\"" ++ db.password ++ "\""

/-- `SHOW TABLES LIKE "<pfx>%"` enumeration command (same template in
`src/commands/backup.ts` and `src/commands/db.ts`). -/
def getTablesCmdRemote (db : DatabaseConfig) (pfx : String) : String :=
  mysqlTargetAuth db ++ " -N -e \"SHOW TABLES LIKE " ++ sq ++ pfx ++ "%" ++ sq ++ "\" \"" ++
    db.name ++ "\""

/-- The remote import command of step 4 of `uploadDatabase`. -/
def importCmdOf (db : DatabaseConfig) (remoteDumpPath : String) : String :=
  mysqlTargetAuth db ++ " \"" ++ db.name ++ "\" < \"" ++ remoteDumpPath ++ "\""

/-- One URL-replacement statement of step 5 of `uploadDatabase`, wrapped in the
remote mysql invocation. -/
def urlQueryCmdOf (db : DatabaseConfig) (query : String) : String :=
  mysqlTargetAuth db ++ " \"" ++ db.name ++ "\" -e \"" ++ query ++ "\""

/-- `mysqldump -h "H" -u "U" -p"P" "DB"`, the unfiltered remote dump command
(same template in `src/commands/backup.ts` and `src/commands/db.ts`). -/
def mysqldumpRemoteBase (db : DatabaseConfig) : String :=
  "mysqldump -h \"" ++ db.host ++ "\" -u \"" ++ db.user ++ "\" -p\"" ++ db.password ++
    "\" \"" ++ db.name ++ "\""

/-- Removal of the uploaded remote dump file. -/
def rmDumpCmdOf (remoteDumpPath : String) : String := "rm -f \"" ++ remoteDumpPath ++ "\""

/-- From `src/commands/db.ts` (`WP_URL_REPLACE_QUERIES`): the fixed list of
WordPress URL-replacement statements, one per (table, column) pair. -/
def WP_URL_REPLACE_QUERIES (tablePfx oldUrl newUrl : String) : List String :=
  [ "UPDATE " ++ tablePfx ++ "options SET option_value = REPLACE(option_value, " ++ sq ++
      oldUrl ++ sq ++ ", " ++ sq ++ newUrl ++ sq ++ ") WHERE option_name = " ++ sq ++
      "home" ++ sq ++ " OR option_name = " ++ sq ++ "siteurl" ++ sq ++ ";",
    "UPDATE " ++ tablePfx ++ "posts SET guid = REPLACE(guid, " ++ sq ++ oldUrl ++ sq ++
      ", " ++ sq ++ newUrl ++ sq ++ ");",
    "UPDATE " ++ tablePfx ++ "posts SET post_content = REPLACE(post_content, " ++ sq ++
      oldUrl ++ sq ++ ", " ++ sq ++ newUrl ++ sq ++ ");",
    "UPDATE " ++ tablePfx ++ "postmeta SET meta_value = REPLACE(meta_value, " ++ sq ++
      oldUrl ++ sq ++ ", " ++ sq ++ newUrl ++ sq ++ ");",
    "UPDATE " ++ tablePfx ++ "comments SET comment_content = REPLACE(comment_content, " ++
      sq ++ oldUrl ++ sq ++ ", " ++ sq ++ newUrl ++ sq ++ ");",
    "UPDATE " ++ tablePfx ++ "comments SET comment_author_url = REPLACE(comment_author_url, " ++
      sq ++ oldUrl ++ sq ++ ", " ++ sq ++ newUrl ++ sq ++ ");",
    "UPDATE " ++ tablePfx ++ "termmeta SET meta_value = REPLACE(meta_value, " ++ sq ++
      oldUrl ++ sq ++ ", " ++ sq ++ newUrl ++ sq ++ ");" ]

/-- From `src/commands/db.ts` (`buildMysqlConnectionArgs`): socket wins over
host/port; password flag only when a password is present (JS truthiness). -/
def buildMysqlConnectionArgs (db : DatabaseConfig) : String :=
  (if optStr db.socket != "" then " --socket=\"" ++ optStr db.socket ++ "\""
   else
    " -h \"" ++ db.host ++ "\"" ++
      (match db.port with
       | some p => if p = 0 then "" else " -P " ++ toString p
       | none => "")) ++
  " -u \"" ++ db.user ++ "\"" ++
  (if db.password = "" then "" else " -p\"" ++ db.password ++ "\"")

/-- `cmd.replace(every single quote, the shell-safe quoting sequence)` from
`wrapWithLocalEnv`. -/
def escapeQuotes (cmd : String) : String :=
  String.mk (List.flatten (cmd.data.map
    (fun c => if c = Char.ofNat 39 then (sq ++ "\"" ++ sq ++ "\"" ++ sq).data else [c])))

/-- From `src/commands/db.ts` (`wrapWithLocalEnv`): if a local-app shell script
is configured, run the command in a bash subshell that first sources only the
`PATH`/`MYSQL_HOME` exports extracted from the script. -/
def wrapWithLocalEnv (cmd : String) (localApp : Option LocalApp) : String :=
  let shellScript := optStr (localApp.bind (fun a => a.shellScript))
  if shellScript = "" then cmd
  else
    "bash -c " ++ sq ++ "source <(grep -E \"^export (PATH|MYSQL_HOME)=\" \"" ++
      shellScript ++ "\") && " ++ escapeQuotes cmd ++ sq

/-- Result type of `dumpLocalDatabase`. -/
structure DumpResult where
  success : Bool
  error : Option String := none
deriving DecidableEq

/-- The tail of `dumpLocalDatabase`: build the mysqldump command (with the
enumerated tables appended when any), redirect into `outputPath`, wrap with the
local-app environment and run it through the local-exec oracle (`Except.error`
is a thrown `execAsync` error). -/
def dumpLocalRun (execA : String → Except String String) (db : DatabaseConfig)
    (localApp : Option LocalApp) (connArgs mysqldumpBin outputPath : String)
    (tables : List String) : DumpResult :=
  let dumpCmd0 := mysqldumpBin ++ connArgs ++ " \"" ++ db.name ++ "\""
  let dumpCmd1 := if tables.isEmpty then dumpCmd0
    else dumpCmd0 ++ " " ++ String.intercalate " " tables
  let dumpCmd := dumpCmd1 ++ " > \"" ++ outputPath ++ "\""
  match execA (wrapWithLocalEnv dumpCmd localApp) with
  | .error e => { success := false, error := some e }
  | .ok _ => { success := true }

/-- From `src/commands/db.ts` (`dumpLocalDatabase`): enumerate the tables
matching the prefix (default `wp_`) and dump them; an empty enumeration result
returns the `No tables found` failure. -/
def dumpLocalDatabase (execA : String → Except String String) (db : Option DatabaseConfig)
    (localApp : Option LocalApp) (outputPath : String) : DumpResult :=
  match db with
  | none => { success := false, error := some "No database configuration found" }
  | some db =>
    let tablePfx := jsOr (optStr db.tablePfx) "wp_"
    let connArgs := buildMysqlConnectionArgs db
    let mysqlBin := jsOr (optStr (localApp.bind (fun a => a.mysqlPath))) "mysql"
    let mysqldumpBin := jsOr (optStr (localApp.bind (fun a => a.mysqldumpPath))) "mysqldump"
    if tablePfx = "" then dumpLocalRun execA db localApp connArgs mysqldumpBin outputPath []
    else
      let getTablesCmd := wrapWithLocalEnv
        (mysqlBin ++ connArgs ++ " -N -e \"SHOW TABLES LIKE " ++ sq ++ tablePfx ++ "%" ++
          sq ++ "\" \"" ++ db.name ++ "\"") localApp
      match execA getTablesCmd with
      | .error e => { success := false, error := some e }
      | .ok stdout =>
        let tables := (splitLinesJS stdout).filter (fun t => t != "")
        if tables.isEmpty then
          { success := false,
            error := some ("No tables found with prefix " ++ sq ++ tablePfx ++ sq) }
        else dumpLocalRun execA db localApp connArgs mysqldumpBin outputPath tables

/-- Environment data consumed by `uploadDatabase` for one side. -/
structure UploadDbEnv where
  url : String := ""
  remotePath : String := ""
  hasSSH : Bool := false
  database : Option DatabaseConfig := none
  localApp : Option LocalApp := none
deriving DecidableEq

/-- Outcome of `uploadDatabase`: `fatal` is a non-zero `process.exit`,
`dryRunPlanned` the dry-run early return, `completed n` the success path with
`n` URL-replacement statements having exited 0. -/
inductive DbUploadOutcome where
  | fatal
  | dryRunPlanned
  | completed (successCount : Nat)
deriving DecidableEq

/-- Step 1 of `uploadDatabase` (pre-migration backup of the target database):
the remote commands it issues, in order.  Its exit codes are only logged, never
fatal. -/
def preUploadBackupTrace (run : String → ExecResult) (targetDb : DatabaseConfig)
    (backupsDir tablePfx : String) (now : JSDate) : List String :=
  let mkdirCmd := "mkdir -p \"" ++ backupsDir ++ "\""
  let backupName := jsSlice ( JSDate.toISOString now) 0 10 ++ "-" ++
    String.mk (replaceFirstChar ':' '-' (jsSlice ( JSDate.toISOString now) 11 16).data) ++
    "-database-pre-upload.tar.gz"
  let sqlFile := backupsDir ++ "/database.sql"
  let backupPath := backupsDir ++ "/" ++ backupName
  let base := mysqldumpRemoteBase targetDb
  let getTablesPart : List String × String :=
    if tablePfx = "" then ([], base)
    else
      let getTablesCmd := getTablesCmdRemote targetDb tablePfx
      let tablesResult := run getTablesCmd
      if tablesResult.code = 0 then
        let tables := (splitLinesJS tablesResult.stdout).filter (fun t => t != "")
        if tables.isEmpty then ([getTablesCmd], base)
        else ([getTablesCmd], base ++ " " ++ String.intercalate " " tables)
      else ([getTablesCmd], base)
  let dumpCmd := getTablesPart.2 ++ " > \"" ++ sqlFile ++ "\" && tar -czf \"" ++
    backupPath ++ "\" -C \"" ++ backupsDir ++ "\" database.sql && rm \"" ++ sqlFile ++ "\""
  mkdirCmd :: getTablesPart.1 ++ [dumpCmd]

/-- From `src/commands/db.ts` (`uploadDatabase`), modelled after the guards:
the ordered trace of remote commands issued through `SSHTransfer.exec` and the
outcome.  `run` is the remote-exec oracle, `execLocal` the local `execAsync`
oracle used by `dumpLocalDatabase`, `uploadFileOk` whether the SFTP upload of
the dump file succeeds (a failed upload throws into the catch block). -/
def uploadDatabase (run : String → ExecResult) (execLocal : String → Except String String)
    (uploadFileOk : Bool) (sourceEnv targetEnv : UploadDbEnv) (tempDir : String)
    (timestamp : Nat) (now : JSDate) (dryRun skipBackup : Bool) :
    List String × DbUploadOutcome :=
  match sourceEnv.database, targetEnv.database with
  | none, _ => ([], .fatal)
  | some _, none => ([], .fatal)
  | some sourceDb, some targetDb =>
    if !targetEnv.hasSSH then ([], .fatal)
    else
      let tablePfx := jsOr (optStr ( DatabaseConfig.tablePfx targetDb))
        (jsOr (optStr sourceDb.tablePfx) "wp_")
      if dryRun then ([], .dryRunPlanned)
      else
        let localDumpPath := tempDir ++ "/move-site-db-" ++ toString timestamp ++ ".sql"
        let backupsDir := targetEnv.remotePath ++ "/backups"
        let btrace := if skipBackup then []
          else preUploadBackupTrace run targetDb backupsDir tablePfx now
        let dumpResult := dumpLocalDatabase execLocal (some sourceDb) sourceEnv.localApp
          localDumpPath
        if !dumpResult.success then (btrace, .fatal)
        else if !uploadFileOk then (btrace, .fatal)
        else
          let remoteDumpPath := targetEnv.remotePath ++ "/backups/upload-" ++
            toString timestamp ++ ".sql"
          let importCmd := importCmdOf targetDb remoteDumpPath
          let importResult := run importCmd
          if importResult.code ≠ 0 then
            (btrace ++ [importCmd, rmDumpCmdOf remoteDumpPath], .fatal)
          else
            let queries := WP_URL_REPLACE_QUERIES tablePfx sourceEnv.url targetEnv.url
            let queryCmds := queries.map (urlQueryCmdOf targetDb)
            let successCount := (queryCmds.filter (fun c => (run c).code == 0)).length
            (btrace ++ [importCmd] ++ queryCmds ++ [rmDumpCmdOf remoteDumpPath],
              .completed successCount)

/-- Observable results of the database section of `runBackup`
(`src/commands/backup.ts`, the `options.database` branch with `dbConfig`
present): the remote commands issued, whether the `No tables found` warning was
printed, the dump command that was run, and whether it exited 0. -/
structure DbBackupStep where
  trace : List String
  warnedNoTables : Bool
  dumpCmd : String
  dumpSucceeded : Bool
deriving DecidableEq

/-- From `src/commands/backup.ts` (`runBackup`, database branch): enumerate
prefixed tables when a prefix is configured (default is the empty string);
whatever that enumeration yields, fall through and run the resulting
mysqldump-and-archive command. -/
def backupDatabaseSection (run : String → ExecResult) (dbConfig : DatabaseConfig)
    (backupsDir : String) (now : JSDate) : DbBackupStep :=
  let dbBackupName := generateBackupName "database" now
  let sqlFile := backupsDir ++ "/database.sql"
  let backupPath := backupsDir ++ "/" ++ dbBackupName
  let tablePfx := optStr dbConfig.tablePfx
  let base := mysqldumpRemoteBase dbConfig
  let step : List String × String × Bool :=
    if tablePfx = "" then ([], base, false)
    else
      let getTablesCmd := getTablesCmdRemote dbConfig tablePfx
      let tablesResult := run getTablesCmd
      if tablesResult.code ≠ 0 then ([getTablesCmd], base, false)
      else
        let tables := (splitLinesJS tablesResult.stdout).filter (fun t => t != "")
        if tables.isEmpty then ([getTablesCmd], base, true)
        else ([getTablesCmd], base ++ " " ++ String.intercalate " " tables, false)
  let dumpCmd := step.2.1 ++ " > \"" ++ sqlFile ++ "\" && tar -czf \"" ++ backupPath ++
    "\" -C \"" ++ backupsDir ++ "\" database.sql && rm \"" ++ sqlFile ++ "\""
  let result := run dumpCmd
  { trace := step.1 ++ [dumpCmd], warnedNoTables := step.2.2, dumpCmd := dumpCmd,
    dumpSucceeded := result.code == 0 }

/-- Outcome of the remote phase of `runUpload`: `fatal` is a `process.exit(1)`
from the catch block; `finished` records whether extraction failed, that the
`Upload complete` message was printed, whether the ownership probe ran and
whether a chown was issued. -/
inductive UploadPhaseOutcome where
  | fatal
  | finished (extractFailed reportedComplete ownershipChecked chownIssued : Bool)
deriving DecidableEq

/-- From `src/commands/upload.ts` (`runUpload`, after the local archive is
built): upload the archive, run the remote extract-and-delete command, delete
the orphaned remote archive when extraction fails, then (unconditionally)
print the completion message and run the ownership phase when a files owner is
configured.  Returns the remote command trace and the outcome. -/
def runUploadRemotePhase (run : String → ExecResult) (uploadFileOk : Bool)
    (remotePath archiveName : String) (sshFilesOwner sshFilesGroup : Option String) :
    List String × UploadPhaseOutcome :=
  if !uploadFileOk then ([], .fatal)
  else
    let remoteArchivePath := remotePath ++ "/" ++ archiveName
    let extractCmd := "cd \"" ++ remotePath ++ "\" && tar -xzf \"" ++ archiveName ++
      "\" && rm \"" ++ archiveName ++ "\""
    let extractResult := run extractCmd
    let extractFailed := extractResult.code != 0
    let cleanup := if extractFailed then ["rm -f \"" ++ remoteArchivePath ++ "\""] else []
    let filesOwner := optStr sshFilesOwner
    let filesGroup := jsOr (optStr sshFilesGroup) filesOwner
    if filesOwner = "" then (extractCmd :: cleanup, .finished extractFailed true false false)
    else
      let checkCmd := checkOwnerCmd remotePath filesOwner
      let checkRes := run checkCmd
      let hasWrongOwner := (jsTrimStr checkRes.stdout).length > 0
      if !hasWrongOwner then
        (extractCmd :: cleanup ++ [checkCmd], .finished extractFailed true true false)
      else
        (extractCmd :: cleanup ++ [checkCmd, chownOwnerCmd remotePath filesOwner filesGroup],
          .finished extractFailed true true true)

/-- The commands run by the URL-replacement phase: each fixed statement wrapped
in its remote mysql invocation. -/
def urlPhaseCmds (targetDb : DatabaseConfig) (tp o n : String) : List String :=
  ( WP_URL_REPLACE_QUERIES tp o n).map (urlQueryCmdOf targetDb)

/-- The table prefix `uploadDatabase` settles on:
`targetDb.tablePrefix || sourceDb.tablePrefix || "wp_"`. -/
def migrationTablePfx (sourceDb targetDb : DatabaseConfig) : String :=
  jsOr (optStr ( DatabaseConfig.tablePfx targetDb)) (jsOr (optStr sourceDb.tablePfx) "wp_")

/-- Concrete source database used by witnesses. -/
def dbSrcW : DatabaseConfig :=
  { host := "127.0.0.1", name := "wp", user := "u", password := "p",
    tablePfx := some "wp_" }

/-- Concrete target database used by witnesses. -/
def dbTgtW : DatabaseConfig :=
  { host := "db.example", name := "wptgt", user := "tu", password := "tp",
    tablePfx := some "wp_" }

/-- Concrete source environment used by witnesses. -/
def srcEnvW : UploadDbEnv :=
  { url := "http://src.local", remotePath := "", hasSSH := false,
    database := some dbSrcW, localApp := none }

/-- Concrete target environment used by witnesses. -/
def tgtEnvW : UploadDbEnv :=
  { url := "https://tgt.example", remotePath := "/var/www", hasSSH := true,
    database := some dbTgtW, localApp := none }

/-- Remote-exec oracle for witnesses where every command succeeds with empty
output. -/
def runOkW : String → ExecResult := fun _ => {}

/-- Remote-exec oracle for witnesses where exactly the dump-import command
fails. -/
def runImportFailW : String → ExecResult := fun c =>
  if c = importCmdOf dbTgtW "/var/www/backups/upload-7.sql" then
    { code := 1, stderr := "access denied" }
  else {}

/-- Local-exec oracle for witnesses: every command succeeds, `SHOW TABLES`
output is one table. -/
def okLocalExecW : String → Except String String := fun _ => Except.ok "wp_posts"

/-- Local-exec oracle for witnesses: every command succeeds with empty output,
so `SHOW TABLES` enumerates no tables. -/
def okNoTablesExecW : String → Except String String := fun _ => Except.ok ""

/-- Remote-exec oracle for witnesses where exactly the remote
extract-and-delete-archive command fails; the ownership probe reports a
mismatched file. -/
def extractFailRunW : String → ExecResult := fun c =>
  if c = "cd \"/var/www\" && tar -xzf \"a.tar.gz\" && rm \"a.tar.gz\"" then
    { code := 1, stderr := "tar error" }
  else { stdout := "/var/www/file1" }

/-! Helper lemmas. -/

theorem digitChar_ne_colon (n : Nat) : digitChar n ≠ ':' := by
  have h : n % 10 < 10 := Nat.mod_lt _ (by omega)
  unfold digitChar
  interval_cases h' : n % 10 <;> decide

theorem digitChar_isDigit (n : Nat) : (digitChar n).isDigit = true := by
  have h : n % 10 < 10 := Nat.mod_lt _ (by omega)
  unfold digitChar
  interval_cases h' : n % 10 <;> decide

theorem digitChar_inj_le9 : ∀ a ≤ 9, ∀ b ≤ 9, digitChar a = digitChar b → a = b := by decide

theorem digitChar_mod_inj (a b : Nat) (h : digitChar a = digitChar b) : a % 10 = b % 10 := by
  have ha : a % 10 ≤ 9 := by omega
  have hb : b % 10 ≤ 9 := by omega
  have hd : digitChar (a % 10) = digitChar (b % 10) := by
    unfold digitChar at h ⊢
    simpa using h
  exact digitChar_inj_le9 _ ha _ hb hd

theorem slice_date_data (d : JSDate) :
    (jsSlice ( JSDate.toISOString d) 0 10).data =
      pad4L d.year ++ '-' :: pad2L d.month ++ '-' :: pad2L d.day := rfl

theorem slice_time_data (d : JSDate) :
    (jsSlice ( JSDate.toISOString d) 11 16).data =
      [digitChar (d.hour / 10), digitChar (d.hour % 10), ':',
        digitChar (d.minute / 10), digitChar (d.minute % 10)] := rfl

theorem replace_colon_time (d : JSDate) :
    replaceFirstChar ':' '-'
        [digitChar (d.hour / 10), digitChar (d.hour % 10), ':',
          digitChar (d.minute / 10), digitChar (d.minute % 10)] =
      [digitChar (d.hour / 10), digitChar (d.hour % 10), '-',
        digitChar (d.minute / 10), digitChar (d.minute % 10)] := by
  simp [replaceFirstChar, digitChar_ne_colon]

theorem generateBackupName_data (ty : String) (d : JSDate) :
    (generateBackupName ty d).data =
      pad4L d.year ++ '-' :: pad2L d.month ++ '-' :: pad2L d.day ++ '-' :: pad2L d.hour ++
        '-' :: pad2L d.minute ++ '-' :: ty.data ++ (".tar.gz").data := by
  show (jsSlice ( JSDate.toISOString d) 0 10 ++ "-" ++
      String.mk (replaceFirstChar ':' '-' (jsSlice ( JSDate.toISOString d) 11 16).data) ++
      "-" ++ ty ++ ".tar.gz").data = _
  rw [String.data_append, String.data_append, String.data_append, String.data_append,
    String.data_append, slice_date_data, slice_time_data]
  rw [replace_colon_time]
  simp [pad4L, pad2L]

theorem backupName_ne_of_minute (ty : String) (d1 d2 : JSDate)
    (hb1 : d1.minute ≤ 59) (hb2 : d2.minute ≤ 59) (hne : d1.minute ≠ d2.minute) :
    generateBackupName ty d1 ≠ generateBackupName ty d2 := by
  intro h
  have hd := congrArg String.data h
  rw [generateBackupName_data, generateBackupName_data] at hd
  simp only [pad4L, pad2L, List.cons_append, List.nil_append, List.cons.injEq,
    eq_self_iff_true, and_true, true_and] at hd
  obtain ⟨-, -, -, -, -, -, -, -, -, -, hmi1, hmi0⟩ := hd
  have ha := digitChar_mod_inj _ _ hmi1
  have hb := digitChar_mod_inj _ _ hmi0
  exact hne (by omega)

/-- Claim C7: for every category string and every instant, the generated
backup name matches the pattern `YYYY-MM-DD-HH-mm-<category>.(tar.gz|zip)`
(digit groups of the stated widths), and two invocations within the same
minute (same UTC calendar fields down to the minute) for the same category
return the same name. -/
theorem generateBackupName_pattern_and_minute_stable (ty : String) (d d' : JSDate)
    (h : JSDate.Valid d) (h' : JSDate.Valid d') :
    MatchesBackupNamePattern ty (generateBackupName ty d) ∧
      (d.year = d'.year → d.month = d'.month → d.day = d'.day → d.hour = d'.hour →
        d.minute = d'.minute → generateBackupName ty d = generateBackupName ty d') := by
  constructor
  · refine ⟨pad4L d.year, pad2L d.month, pad2L d.day, pad2L d.hour, pad2L d.minute,
      rfl, rfl, rfl, rfl, rfl, ?_, Or.inl (generateBackupName_data ty d)⟩
    have hmap : pad4L d.year ++ pad2L d.month ++ pad2L d.day ++ pad2L d.hour ++ pad2L d.minute
        = List.map digitChar
          [d.year / 1000, d.year / 100, d.year / 10, d.year % 10,
            d.month / 10, d.month % 10, d.day / 10, d.day % 10,
            d.hour / 10, d.hour % 10, d.minute / 10, d.minute % 10] := rfl
    rw [hmap]
    intro c hc
    rw [List.mem_map] at hc
    obtain ⟨x, -, hx⟩ := hc
    rw [← hx]
    exact digitChar_isDigit x
  · intro hy hmo hda hho hmi
    apply String.ext
    rw [generateBackupName_data, generateBackupName_data, hy, hmo, hda, hho, hmi]

theorem generateBackupName_pattern_witness :
    MatchesBackupNamePattern "database"
        (generateBackupName "database" ⟨2025, 1, 2, 3, 4, 5, 6⟩) ∧
      generateBackupName "database" ⟨2025, 1, 2, 3, 4, 5, 6⟩ =
        generateBackupName "database" ⟨2025, 1, 2, 3, 4, 50, 900⟩ := by
  have h := generateBackupName_pattern_and_minute_stable "database"
    ⟨2025, 1, 2, 3, 4, 5, 6⟩ ⟨2025, 1, 2, 3, 4, 50, 900⟩ (by decide) (by decide)
  exact ⟨h.1, h.2 rfl rfl rfl rfl rfl⟩

/-- Claim C8: a backup name is classified as a database archive iff it contains
the literal substring `-database.`; the two example names dispatch to the
database and files restore paths respectively. -/
theorem classifyRestore_spec :
    (∀ name : String, classifyRestore name = RestorePath.database ↔
        ("-database.").data <:+: name.data) ∧
      classifyRestore "2025-01-01-00-00-database.tar.gz" = RestorePath.database ∧
      classifyRestore "2025-01-01-00-00-themes.tar.gz" = RestorePath.files := by
  refine ⟨fun name => ?_, by decide, by decide⟩
  by_cases hp : ("-database.").data <:+: name.data
  · simp [classifyRestore, jsIncludes, hp]
  · simp [classifyRestore, jsIncludes, hp]

/-- Claim C10: the backup name encodes the UTC minute, not the local minute:
two valid instants in the same local minute (for any fixed UTC offset in
seconds) but different UTC minutes get different names, and two instants in
the same UTC minute get the same name even when their local minutes differ. -/
theorem generateBackupName_utc (ty : String) (off : Int) (d1 d2 : JSDate)
    (h1 : JSDate.Valid d1) (h2 : JSDate.Valid d2) :
    (localMinuteIndex off d1 = localMinuteIndex off d2 →
        utcMinuteIndex d1 ≠ utcMinuteIndex d2 →
        generateBackupName ty d1 ≠ generateBackupName ty d2) ∧
      (d1.year = d2.year → d1.month = d2.month → d1.day = d2.day → d1.hour = d2.hour →
        d1.minute = d2.minute → localMinuteIndex off d1 ≠ localMinuteIndex off d2 →
        generateBackupName ty d1 = generateBackupName ty d2) := by
  obtain ⟨-, -, -, -, -, hh1, hm1, hs1, -⟩ := h1
  obtain ⟨-, -, -, -, -, hh2, hm2, hs2, -⟩ := h2
  constructor
  · intro hloc hutc
    apply backupName_ne_of_minute ty d1 d2 hm1 hm2
    simp only [localMinuteIndex, epochSeconds, utcMinuteIndex] at hloc hutc
    omega
  · intro hy hmo hda hho hmi _
    apply String.ext
    rw [generateBackupName_data, generateBackupName_data, hy, hmo, hda, hho, hmi]

theorem generateBackupName_utc_witness :
    generateBackupName "all" ⟨2025, 1, 2, 3, 4, 50, 0⟩ ≠
        generateBackupName "all" ⟨2025, 1, 2, 3, 5, 10, 0⟩ ∧
      generateBackupName "all" ⟨2025, 1, 2, 3, 4, 10, 0⟩ =
        generateBackupName "all" ⟨2025, 1, 2, 3, 4, 50, 0⟩ := by
  constructor
  · exact (generateBackupName_utc "all" 30 ⟨2025, 1, 2, 3, 4, 50, 0⟩ ⟨2025, 1, 2, 3, 5, 10, 0⟩
      (by decide) (by decide)).1 (by decide) (by decide)
  · exact (generateBackupName_utc "all" 30 ⟨2025, 1, 2, 3, 4, 10, 0⟩ ⟨2025, 1, 2, 3, 4, 50, 0⟩
      (by decide) (by decide)).2 rfl rfl rfl rfl rfl (by decide)

theorem uploadFilesLoop_spec (upload : FileInfo → Option String) :
    ∀ (files : List FileInfo) (c0 : Nat) (e0 : List (String × String)),
      uploadFilesLoop upload files c0 e0 =
        (c0 + (files.filter (fun f => (upload f).isNone)).length,
          e0 ++ files.filterMap (fun f => (upload f).map (fun m => (f.relativePath, m)))) := by
  intro files
  induction files with
  | nil => intro c0 e0; simp [uploadFilesLoop]
  | cons f fs ih =>
    intro c0 e0
    unfold uploadFilesLoop
    cases hu : upload f with
    | none =>
      rw [ih]
      simp [hu, Nat.add_comm, Nat.add_assoc, Nat.add_left_comm]
    | some msg =>
      simp [hu, ih, List.append_assoc]

/-- Claim C9: `uploadFiles` never propagates a per-file failure: every file is
attempted, failing files are recorded as (file, error) pairs in input order,
`total` is the input length, `completed` counts the successes, and
`completed + errors.length = total`. -/
theorem uploadFiles_spec (upload : FileInfo → Option String) (files : List FileInfo) :
    (uploadFiles upload files).total = files.length ∧
      (uploadFiles upload files).completed =
        (files.filter (fun f => (upload f).isNone)).length ∧
      (uploadFiles upload files).errors =
        files.filterMap (fun f => (upload f).map (fun m => (f.relativePath, m))) ∧
      (uploadFiles upload files).completed + (uploadFiles upload files).errors.length =
        (uploadFiles upload files).total := by
  have aux : ∀ fs : List FileInfo,
      (fs.filter (fun f => (upload f).isNone)).length +
        (fs.filterMap (fun f => (upload f).map (fun m => (f.relativePath, m)))).length =
        fs.length := by
    intro fs
    induction fs with
    | nil => rfl
    | cons f fs ih => cases hu : upload f <;> simp [hu] <;> omega
  unfold uploadFiles
  rw [uploadFilesLoop_spec upload files 0 []]
  refine ⟨rfl, by simp, by simp, ?_⟩
  simpa using aux files

/-- Claim C3: exact domain keys resolve immediately with no notice; kind
matching is case-insensitive over all environments; substring matching runs
only when no kind matched; zero matches yield the failure listing every
domain key with its kind; exactly one non-exact match resolves with the
visible notice. -/
theorem resolveEnvironment_spec (identifier : String)
    (environments : List (String × EnvironmentConfig)) :
    ((lookupEnv environments identifier).isSome →
        resolveEnvironment identifier environments =
          ResolveResult.resolved identifier false) ∧
      (∀ p, p ∈ typeMatches identifier environments ↔
        p ∈ environments ∧ p.2.type ≠ "" ∧
          toLowerString p.2.type = toLowerString identifier) ∧
      (∀ p, p ∈ fuzzyMatches identifier environments ↔
        p ∈ environments ∧ (toLowerString identifier).data <:+: (toLowerString p.1).data) ∧
      (environments ≠ [] → lookupEnv environments identifier = none →
        typeMatches identifier environments ≠ [] →
        resolveEnvironment identifier environments =
          match typeMatches identifier environments with
          | [] => ResolveResult.notFound (environments.map (fun p => (p.1, p.2.type)))
          | [m] => ResolveResult.resolved m.1 true
          | m1 :: m2 :: rest =>
            ResolveResult.selector ((m1 :: m2 :: rest).map (fun p => p.1))) ∧
      (environments ≠ [] → lookupEnv environments identifier = none →
        typeMatches identifier environments = [] →
        fuzzyMatches identifier environments = [] →
        resolveEnvironment identifier environments =
          ResolveResult.notFound (environments.map (fun p => (p.1, p.2.type)))) ∧
      (∀ m, environments ≠ [] → lookupEnv environments identifier = none →
        (typeMatches identifier environments = [m] ∨
          (typeMatches identifier environments = [] ∧
            fuzzyMatches identifier environments = [m])) →
        resolveEnvironment identifier environments = ResolveResult.resolved m.1 true) := by
  have hne_isEmpty : environments ≠ [] → environments.isEmpty = false := by
    intro h
    cases environments with
    | nil => exact absurd rfl h
    | cons a as => rfl
  refine ⟨?_, ?_, ?_, ?_, ?_, ?_⟩
  · intro h
    cases henv : environments with
    | nil => rw [henv] at h; simp [lookupEnv] at h
    | cons a as =>
      rw [henv] at h
      simp [resolveEnvironment, h]
  · intro p
    simp [typeMatches, List.mem_filter, Bool.and_eq_true, bne_iff_ne, beq_iff_eq]
  · intro p
    simp [fuzzyMatches, List.mem_filter, jsIncludes, decide_eq_true_eq]
  · intro hne hnone htm
    have h1 := hne_isEmpty hne
    have h2 : (typeMatches identifier environments).isEmpty = false := by
      cases h : typeMatches identifier environments with
      | nil => exact absurd h htm
      | cons a as => rfl
    simp [resolveEnvironment, h1, hnone, h2]
  · intro hne hnone htm hfm
    have h1 := hne_isEmpty hne
    simp [resolveEnvironment, h1, hnone, htm, hfm]
  · intro m hne hnone hcase
    have h1 := hne_isEmpty hne
    rcases hcase with htm | ⟨htm, hfm⟩
    · simp [resolveEnvironment, h1, hnone, htm]
    · simp [resolveEnvironment, h1, hnone, htm, hfm]

theorem resolveEnvironment_spec_witness :
    resolveEnvironment "example.com"
        [("example.com", { type := "production" }), ("local", { type := "local" })] =
      ResolveResult.resolved "example.com" false ∧
    resolveEnvironment "production"
        [("example.com", { type := "production" }), ("local", { type := "local" })] =
      ResolveResult.resolved "example.com" true ∧
    resolveEnvironment "exam"
        [("example.com", { type := "production" }), ("local", { type := "local" })] =
      ResolveResult.resolved "example.com" true ∧
    resolveEnvironment "nope"
        [("example.com", { type := "production" }), ("local", { type := "local" })] =
      ResolveResult.notFound [("example.com", "production"), ("local", "local")] := by
  refine ⟨(resolveEnvironment_spec "example.com" _).1 (by decide),
    (resolveEnvironment_spec "production" _).2.2.2.2.2 ("example.com", { type := "production" })
      (by decide) (by decide) (Or.inl (by decide)),
    (resolveEnvironment_spec "exam" _).2.2.2.2.2 ("example.com", { type := "production" })
      (by decide) (by decide) (Or.inr ⟨by decide, by decide⟩),
    (resolveEnvironment_spec "nope" _).2.2.2.2.1 (by decide) (by decide) (by decide) (by decide)⟩

theorem probeWrongOwner_applyChown (owner : String) (fs : RemoteFS) :
    probeWrongOwner owner (applyChown owner fs) = false := by
  rw [probeWrongOwner, applyChown, List.any_eq_false]
  intro x hx
  rw [List.mem_map] at hx
  obtain ⟨f, hf, rfl⟩ := hx
  by_cases hd : 1 ≤ f.depth
  · simp [hd]
  · simp [hd]

theorem probe_after_reconcile (owner : String) (fs : RemoteFS) :
    probeWrongOwner owner (reconcileOwnership true owner fs).2 = false := by
  cases hp : probeWrongOwner owner fs with
  | false => simp [reconcileOwnership, hp]
  | true => simp [reconcileOwnership, hp, probeWrongOwner_applyChown]

theorem applyChown_depth0 (owner : String) (fs : RemoteFS) :
    (applyChown owner fs).files.map (fun f => if f.depth = 0 then some f.owner else none) =
      fs.files.map (fun f => if f.depth = 0 then some f.owner else none) := by
  obtain ⟨l⟩ := fs
  rw [applyChown]
  induction l with
  | nil => rfl
  | cons x xs ih =>
    simp only [List.map_cons, List.map_cons] at ih ⊢
    rw [ih]
    by_cases h : 1 ≤ x.depth
    · simp [h, Nat.not_eq_zero_of_lt h]
    · simp [h]

/-- Claim C6: ownership reconciliation is idempotent — after a first run whose
chown succeeds, the second run's probe finds nothing and issues no chown, so
the correction is issued at most once over the two runs; depth-0 (root) owners
are never altered, the probe ignores a root entry, and both command strings
are constrained to `-mindepth 1`. -/
theorem reconcileOwnership_spec (fs : RemoteFS) (owner : String) (ok2 : Bool)
    (remotePath group rootOwner : String) :
    ((reconcileOwnership ok2 owner (reconcileOwnership true owner fs).2).1 = false ∧
      (reconcileOwnership ok2 owner (reconcileOwnership true owner fs).2).2 =
        (reconcileOwnership true owner fs).2) ∧
    ((if (reconcileOwnership true owner fs).1 then 1 else 0) +
        (if (reconcileOwnership ok2 owner (reconcileOwnership true owner fs).2).1 then 1
          else 0) ≤ 1) ∧
    ((reconcileOwnership true owner fs).2.files.map
        (fun f => if f.depth = 0 then some f.owner else none) =
      fs.files.map (fun f => if f.depth = 0 then some f.owner else none)) ∧
    probeWrongOwner owner ⟨⟨0, rootOwner⟩ :: fs.files⟩ = probeWrongOwner owner fs ∧
    ("-mindepth 1").data <:+: (checkOwnerCmd remotePath owner).data ∧
    ("-mindepth 1").data <:+: (chownOwnerCmd remotePath owner group).data := by
  have hsecond : reconcileOwnership ok2 owner (reconcileOwnership true owner fs).2 =
      (false, (reconcileOwnership true owner fs).2) := by
    rw [reconcileOwnership, probe_after_reconcile]
    simp
  refine ⟨⟨by rw [hsecond], by rw [hsecond]⟩, ?_, ?_, ?_, ?_, ?_⟩
  · rw [hsecond]
    cases (reconcileOwnership true owner fs).1 <;> simp
  · cases hp : probeWrongOwner owner fs with
    | false => simp [reconcileOwnership, hp]
    | true => simp [reconcileOwnership, hp, applyChown_depth0]
  · simp [probeWrongOwner]
  · refine ⟨("find \"").data ++ remotePath.data ++ ("\" ").data,
      (" ! -user ").data ++ owner.data ++ (" 2>/dev/null | head -1").data, ?_⟩
    have h : ("\" -mindepth 1 ! -user " : String).data =
        ("\" " : String).data ++ ("-mindepth 1" : String).data ++
          (" ! -user " : String).data := by decide
    simp [checkOwnerCmd, String.data_append, h, List.append_assoc]
  · refine ⟨("find \"").data ++ remotePath.data ++ ("\" ").data,
      (" -exec chown ").data ++ owner.data ++ (":").data ++ group.data ++
        (" \x7b\x7d + 2>&1").data, ?_⟩
    have h : ("\" -mindepth 1 -exec chown " : String).data =
        ("\" " : String).data ++ ("-mindepth 1" : String).data ++
          (" -exec chown " : String).data := by decide
    simp [chownOwnerCmd, String.data_append, h, List.append_assoc]

theorem reconcileOwnership_spec_witness :
    (reconcileOwnership false "www-data"
        (reconcileOwnership true "www-data" ⟨[⟨0, "root"⟩, ⟨1, "deploy"⟩, ⟨2, "deploy"⟩]⟩).2).1 =
      false ∧
    (reconcileOwnership true "www-data" ⟨[⟨0, "root"⟩, ⟨1, "deploy"⟩, ⟨2, "deploy"⟩]⟩).2 =
      ⟨[⟨0, "root"⟩, ⟨1, "www-data"⟩, ⟨2, "www-data"⟩]⟩ := by
  exact ⟨(reconcileOwnership_spec ⟨[⟨0, "root"⟩, ⟨1, "deploy"⟩, ⟨2, "deploy"⟩]⟩ "www-data"
    false "/var/www" "www-data" "root").1.1, by decide⟩

theorem strAppend_assoc (a b c : String) : a ++ b ++ c = a ++ (b ++ c) := by
  apply String.ext
  simp [String.data_append, List.append_assoc]

theorem urlQueryCmd_ne_mkdir (db : DatabaseConfig) (q s : String) :
    urlQueryCmdOf db q ≠ "mkdir -p \"" ++ s ++ "\"" := by
  intro h
  have hd := congrArg String.data h
  simp [urlQueryCmdOf, mysqlTargetAuth, String.data_append] at hd

theorem urlQueryCmd_ne_getTables (db : DatabaseConfig) (q pfx : String) :
    urlQueryCmdOf db q ≠ getTablesCmdRemote db pfx := by
  intro h
  have hd := congrArg String.data h
  simp [urlQueryCmdOf, getTablesCmdRemote, mysqlTargetAuth, String.data_append,
    List.append_assoc] at hd

theorem urlQueryCmd_ne_import (db : DatabaseConfig) (q path : String) :
    urlQueryCmdOf db q ≠ importCmdOf db path := by
  intro h
  have hd := congrArg String.data h
  simp [urlQueryCmdOf, importCmdOf, mysqlTargetAuth, String.data_append,
    List.append_assoc] at hd

theorem urlQueryCmd_ne_dump (db db' : DatabaseConfig) (q suffix : String) :
    urlQueryCmdOf db q ≠ mysqldumpRemoteBase db' ++ suffix := by
  intro h
  have hd := congrArg String.data h
  simp [urlQueryCmdOf, mysqldumpRemoteBase, mysqlTargetAuth, String.data_append,
    List.append_assoc] at hd

theorem urlQueryCmd_ne_rm (db : DatabaseConfig) (q path : String) :
    urlQueryCmdOf db q ≠ rmDumpCmdOf path := by
  intro h
  have hd := congrArg String.data h
  simp [urlQueryCmdOf, rmDumpCmdOf, mysqlTargetAuth, String.data_append] at hd

theorem preUploadBackupTrace_shapes (run : String → ExecResult) (db : DatabaseConfig)
    (backupsDir pfx : String) (now : JSDate) :
    ∀ c ∈ preUploadBackupTrace run db backupsDir pfx now,
      (∃ s, c = "mkdir -p \"" ++ s ++ "\"") ∨ (∃ p, c = getTablesCmdRemote db p) ∨
        (∃ t, c = mysqldumpRemoteBase db ++ t) := by
  intro c hc
  unfold preUploadBackupTrace at hc
  by_cases h1 : pfx = ""
  · simp [h1] at hc
    rcases hc with rfl | rfl
    · exact Or.inl ⟨backupsDir, rfl⟩
    · exact Or.inr (Or.inr ⟨_, by repeat rw [strAppend_assoc]⟩)
  · by_cases h2 : (run (getTablesCmdRemote db pfx)).code = 0
    · by_cases h3 : ((splitLinesJS (run (getTablesCmdRemote db pfx)).stdout).filter
          (fun t => t != "")).isEmpty
      · simp [h1, h2, h3] at hc
        rcases hc with rfl | rfl | rfl
        · exact Or.inl ⟨backupsDir, rfl⟩
        · exact Or.inr (Or.inl ⟨pfx, rfl⟩)
        · exact Or.inr (Or.inr ⟨_, by repeat rw [strAppend_assoc]⟩)
      · simp [h1, h2, h3] at hc
        rcases hc with rfl | rfl | rfl
        · exact Or.inl ⟨backupsDir, rfl⟩
        · exact Or.inr (Or.inl ⟨pfx, rfl⟩)
        · exact Or.inr (Or.inr ⟨_, by repeat rw [strAppend_assoc]⟩)
    · simp [h1, h2] at hc
      rcases hc with rfl | rfl | rfl
      · exact Or.inl ⟨backupsDir, rfl⟩
      · exact Or.inr (Or.inl ⟨pfx, rfl⟩)
      · exact Or.inr (Or.inr ⟨_, by repeat rw [strAppend_assoc]⟩)

theorem urlQueryCmd_not_mem_pre (run : String → ExecResult) (db : DatabaseConfig)
    (backupsDir pfx : String) (now : JSDate) (q : String) :
    urlQueryCmdOf db q ∉ preUploadBackupTrace run db backupsDir pfx now := by
  intro hmem
  rcases preUploadBackupTrace_shapes run db backupsDir pfx now _ hmem with
    ⟨s, hs⟩ | ⟨p, hp⟩ | ⟨t, htt⟩
  · exact urlQueryCmd_ne_mkdir db q s hs
  · exact urlQueryCmd_ne_getTables db q p hp
  · exact urlQueryCmd_ne_dump db db q t htt

/-- Claim C1: for every table prefix, source URL and target URL, the URL
replacement phase executes exactly the seven fixed `UPDATE ... REPLACE(...)`
statements, one per (table, column) pair; the trace contains all seven for
every exec oracle (a non-zero exit never prevents the remaining statements),
and the reported success count is the number of the fixed statements whose
exit code is zero. -/
theorem urlReplacement_fixed_statements
    (run : String → ExecResult) (execLocal : String → Except String String)
    (sourceEnv targetEnv : UploadDbEnv) (sourceDb targetDb : DatabaseConfig)
    (tempDir : String) (timestamp : Nat) (now : JSDate) (skipBackup : Bool)
    (hs : sourceEnv.database = some sourceDb) (ht : targetEnv.database = some targetDb)
    (hssh : targetEnv.hasSSH = true)
    (hdump : (dumpLocalDatabase execLocal (some sourceDb) sourceEnv.localApp
        (tempDir ++ "/move-site-db-" ++ toString timestamp ++ ".sql")).success = true)
    (himp : (run (importCmdOf targetDb (targetEnv.remotePath ++ "/backups/upload-" ++
        toString timestamp ++ ".sql"))).code = 0) :
    (∀ tp o n, WP_URL_REPLACE_QUERIES tp o n =
      [ "UPDATE " ++ tp ++ "options SET option_value = REPLACE(option_value, " ++ sq ++
          o ++ sq ++ ", " ++ sq ++ n ++ sq ++ ") WHERE option_name = " ++ sq ++
          "home" ++ sq ++ " OR option_name = " ++ sq ++ "siteurl" ++ sq ++ ";",
        "UPDATE " ++ tp ++ "posts SET guid = REPLACE(guid, " ++ sq ++ o ++ sq ++
          ", " ++ sq ++ n ++ sq ++ ");",
        "UPDATE " ++ tp ++ "posts SET post_content = REPLACE(post_content, " ++ sq ++
          o ++ sq ++ ", " ++ sq ++ n ++ sq ++ ");",
        "UPDATE " ++ tp ++ "postmeta SET meta_value = REPLACE(meta_value, " ++ sq ++
          o ++ sq ++ ", " ++ sq ++ n ++ sq ++ ");",
        "UPDATE " ++ tp ++ "comments SET comment_content = REPLACE(comment_content, " ++
          sq ++ o ++ sq ++ ", " ++ sq ++ n ++ sq ++ ");",
        "UPDATE " ++ tp ++ "comments SET comment_author_url = REPLACE(comment_author_url, " ++
          sq ++ o ++ sq ++ ", " ++ sq ++ n ++ sq ++ ");",
        "UPDATE " ++ tp ++ "termmeta SET meta_value = REPLACE(meta_value, " ++ sq ++
          o ++ sq ++ ", " ++ sq ++ n ++ sq ++ ");" ]) ∧
    (∀ tp o n, ( WP_URL_REPLACE_QUERIES tp o n).length = 7) ∧
    (∃ pre,
      (uploadDatabase run execLocal true sourceEnv targetEnv tempDir timestamp now
          false skipBackup).1 =
        pre ++ urlPhaseCmds targetDb (migrationTablePfx sourceDb targetDb)
            sourceEnv.url targetEnv.url ++
          [rmDumpCmdOf (targetEnv.remotePath ++ "/backups/upload-" ++ toString timestamp ++
            ".sql")]) ∧
    (uploadDatabase run execLocal true sourceEnv targetEnv tempDir timestamp now
        false skipBackup).2 =
      DbUploadOutcome.completed
        ((urlPhaseCmds targetDb (migrationTablePfx sourceDb targetDb)
            sourceEnv.url targetEnv.url).filter
          (fun c => (run c).code == 0)).length := by
  have hred : uploadDatabase run execLocal true sourceEnv targetEnv tempDir timestamp now
      false skipBackup =
      ((if skipBackup then []
        else preUploadBackupTrace run targetDb (targetEnv.remotePath ++ "/backups")
          (migrationTablePfx sourceDb targetDb) now) ++
        [importCmdOf targetDb (targetEnv.remotePath ++ "/backups/upload-" ++
          toString timestamp ++ ".sql")] ++
        urlPhaseCmds targetDb (migrationTablePfx sourceDb targetDb)
          sourceEnv.url targetEnv.url ++
        [rmDumpCmdOf (targetEnv.remotePath ++ "/backups/upload-" ++ toString timestamp ++
          ".sql")],
        DbUploadOutcome.completed
          ((urlPhaseCmds targetDb (migrationTablePfx sourceDb targetDb)
              sourceEnv.url targetEnv.url).filter
            (fun c => (run c).code == 0)).length) := by
    unfold uploadDatabase urlPhaseCmds migrationTablePfx
    rw [hs, ht, hssh]
    simp [hdump, himp]
  refine ⟨fun tp o n => rfl, fun tp o n => rfl, ?_, ?_⟩
  · refine ⟨(if skipBackup then []
      else preUploadBackupTrace run targetDb (targetEnv.remotePath ++ "/backups")
        (migrationTablePfx sourceDb targetDb) now) ++
      [importCmdOf targetDb (targetEnv.remotePath ++ "/backups/upload-" ++
        toString timestamp ++ ".sql")], ?_⟩
    rw [hred]
  · rw [hred]

theorem urlReplacement_fixed_statements_witness :
    (uploadDatabase runOkW okLocalExecW true srcEnvW tgtEnvW
        "/tmp" 7 ⟨2025, 1, 2, 3, 4, 5, 6⟩ false true).2 =
      DbUploadOutcome.completed 7 := by
  rw [(urlReplacement_fixed_statements runOkW okLocalExecW srcEnvW tgtEnvW dbSrcW dbTgtW
    "/tmp" 7 ⟨2025, 1, 2, 3, 4, 5, 6⟩ true rfl rfl rfl (by decide) (by decide)).2.2.2]
  decide

/-- Claim C2: when the remote import of the uploaded dump exits non-zero, the
operation removes the uploaded remote dump file and aborts fatally; no
URL-replacement statement is ever executed against the target database. -/
theorem importFailure_aborts
    (run : String → ExecResult) (execLocal : String → Except String String)
    (sourceEnv targetEnv : UploadDbEnv) (sourceDb targetDb : DatabaseConfig)
    (tempDir : String) (timestamp : Nat) (now : JSDate) (skipBackup : Bool)
    (hs : sourceEnv.database = some sourceDb) (ht : targetEnv.database = some targetDb)
    (hssh : targetEnv.hasSSH = true)
    (hdump : (dumpLocalDatabase execLocal (some sourceDb) sourceEnv.localApp
        (tempDir ++ "/move-site-db-" ++ toString timestamp ++ ".sql")).success = true)
    (himp : (run (importCmdOf targetDb (targetEnv.remotePath ++ "/backups/upload-" ++
        toString timestamp ++ ".sql"))).code ≠ 0) :
    (uploadDatabase run execLocal true sourceEnv targetEnv tempDir timestamp now
        false skipBackup).2 = DbUploadOutcome.fatal ∧
    (∃ pre,
      (uploadDatabase run execLocal true sourceEnv targetEnv tempDir timestamp now
          false skipBackup).1 =
        pre ++
          [importCmdOf targetDb (targetEnv.remotePath ++ "/backups/upload-" ++
            toString timestamp ++ ".sql"),
           rmDumpCmdOf (targetEnv.remotePath ++ "/backups/upload-" ++
            toString timestamp ++ ".sql")]) ∧
    (∀ q : String,
      urlQueryCmdOf targetDb q ∉
        (uploadDatabase run execLocal true sourceEnv targetEnv tempDir timestamp now
          false skipBackup).1) := by
  have hred : uploadDatabase run execLocal true sourceEnv targetEnv tempDir timestamp now
      false skipBackup =
      ((if skipBackup then []
        else preUploadBackupTrace run targetDb (targetEnv.remotePath ++ "/backups")
          (migrationTablePfx sourceDb targetDb) now) ++
        [importCmdOf targetDb (targetEnv.remotePath ++ "/backups/upload-" ++
          toString timestamp ++ ".sql"),
         rmDumpCmdOf (targetEnv.remotePath ++ "/backups/upload-" ++ toString timestamp ++
          ".sql")],
        DbUploadOutcome.fatal) := by
    unfold uploadDatabase migrationTablePfx
    rw [hs, ht, hssh]
    simp [hdump, himp]
  refine ⟨by rw [hred], ⟨_, by rw [hred]⟩, ?_⟩
  intro q hmem
  rw [hred] at hmem
  simp only [List.mem_append, List.mem_cons, List.mem_singleton, List.not_mem_nil,
    or_false] at hmem
  rcases hmem with hpre | heq | heq
  · by_cases hsb : skipBackup
    · simp [hsb] at hpre
    · rw [if_neg hsb] at hpre
      exact urlQueryCmd_not_mem_pre run targetDb _ _ now q hpre
  · exact urlQueryCmd_ne_import targetDb q _ heq
  · exact urlQueryCmd_ne_rm targetDb q _ heq

theorem importFailure_aborts_witness :
    (uploadDatabase runImportFailW okLocalExecW true srcEnvW tgtEnvW
        "/tmp" 7 ⟨2025, 1, 2, 3, 4, 5, 6⟩ false true).2 = DbUploadOutcome.fatal ∧
    urlQueryCmdOf dbTgtW "UPDATE x" ∉
      (uploadDatabase runImportFailW okLocalExecW true srcEnvW tgtEnvW
        "/tmp" 7 ⟨2025, 1, 2, 3, 4, 5, 6⟩ false true).1 := by
  have h := importFailure_aborts runImportFailW okLocalExecW srcEnvW tgtEnvW dbSrcW dbTgtW
    "/tmp" 7 ⟨2025, 1, 2, 3, 4, 5, 6⟩ true rfl rfl rfl (by decide) (by decide)
  exact ⟨h.1, h.2.2 "UPDATE x"⟩

theorem jsOr_default_ne (a b : String) (hb : b ≠ "") : jsOr a b ≠ "" := by
  unfold jsOr
  split
  · exact hb
  · assumption

set_option maxRecDepth 100000 in
/-- Claim C4 (counterexample to the claim as stated): with the table prefix
`wp_` configured and `SHOW TABLES` succeeding with zero rows, `runBackup`
prints the recoverable warning but then still runs the full unfiltered
`mysqldump` (refuting "a full dump is produced only when no prefix filtering
was requested at all"), while `dumpLocalDatabase` returns a `No tables found`
error and `uploadDatabase` aborts fatally on it (refuting "recoverable
warning rather than a fatal error" for the migration's dump). -/
theorem noTablesFound_counterexample :
    DatabaseConfig.tablePfx dbSrcW = some "wp_" ∧
    (backupDatabaseSection runOkW dbSrcW "/var/www/backups"
        ⟨2025, 1, 2, 3, 4, 5, 6⟩).warnedNoTables = true ∧
    (backupDatabaseSection runOkW dbSrcW "/var/www/backups"
        ⟨2025, 1, 2, 3, 4, 5, 6⟩).dumpCmd =
      mysqldumpRemoteBase dbSrcW ++
        " > \"/var/www/backups/database.sql\" && tar -czf \"/var/www/backups/2025-01-02-03-04-database.tar.gz\" -C \"/var/www/backups\" database.sql && rm \"/var/www/backups/database.sql\"" ∧
    dumpLocalDatabase okNoTablesExecW (some dbSrcW) none "/tmp/d.sql" =
      { success := false,
        error := some ("No tables found with prefix " ++ sq ++ "wp_" ++ sq) } ∧
    (uploadDatabase runOkW okNoTablesExecW true srcEnvW tgtEnvW "/tmp" 7
        ⟨2025, 1, 2, 3, 4, 5, 6⟩ false true).2 = DbUploadOutcome.fatal := by
  refine ⟨rfl, by decide, by decide, by decide, by decide⟩

/-- Claim C4 (amended): when a table prefix is configured and the
prefix-filtered enumeration returns zero tables, backup creation reports the
recoverable `No tables found` warning but still proceeds to run a full
(unfiltered) dump; the migration's local dump instead returns a
`No tables found` error, and a failed local dump makes `uploadDatabase` abort
fatally. -/
theorem noTablesFound_behavior
    (run : String → ExecResult) (execLocal : String → Except String String)
    (dbConfig srcDb sourceDb targetDb : DatabaseConfig)
    (sourceEnv targetEnv : UploadDbEnv) (backupsDir outputPath tempDir out : String)
    (localApp : Option LocalApp) (timestamp : Nat) (now : JSDate) (skipBackup : Bool)
    (hpfx : optStr dbConfig.tablePfx ≠ "")
    (hcode : (run (getTablesCmdRemote dbConfig (optStr dbConfig.tablePfx))).code = 0)
    (hempty : ((splitLinesJS (run (getTablesCmdRemote dbConfig
        (optStr dbConfig.tablePfx))).stdout).filter (fun t => t != "")).isEmpty = true)
    (hl1 : execLocal (wrapWithLocalEnv
        ((jsOr (optStr (localApp.bind (fun a => a.mysqlPath))) "mysql") ++
          buildMysqlConnectionArgs srcDb ++ " -N -e \"SHOW TABLES LIKE " ++ sq ++
          (jsOr (optStr srcDb.tablePfx) "wp_") ++ "%" ++ sq ++ "\" \"" ++ srcDb.name ++
          "\"") localApp) = Except.ok out)
    (hl2 : ((splitLinesJS out).filter (fun t => t != "")).isEmpty = true)
    (hs : sourceEnv.database = some sourceDb) (ht : targetEnv.database = some targetDb)
    (hssh : targetEnv.hasSSH = true)
    (hdumpfail : (dumpLocalDatabase execLocal (some sourceDb) sourceEnv.localApp
        (tempDir ++ "/move-site-db-" ++ toString timestamp ++ ".sql")).success = false) :
    (backupDatabaseSection run dbConfig backupsDir now).warnedNoTables = true ∧
    (backupDatabaseSection run dbConfig backupsDir now).trace =
      [getTablesCmdRemote dbConfig (optStr dbConfig.tablePfx),
        (backupDatabaseSection run dbConfig backupsDir now).dumpCmd] ∧
    (backupDatabaseSection run dbConfig backupsDir now).dumpCmd =
      mysqldumpRemoteBase dbConfig ++ " > \"" ++ (backupsDir ++ "/database.sql") ++
        "\" && tar -czf \"" ++
        (backupsDir ++ "/" ++ generateBackupName "database" now) ++ "\" -C \"" ++
        backupsDir ++ "\" database.sql && rm \"" ++ (backupsDir ++ "/database.sql") ++
        "\"" ∧
    dumpLocalDatabase execLocal (some srcDb) localApp outputPath =
      { success := false,
        error := some ("No tables found with prefix " ++ sq ++
          (jsOr (optStr srcDb.tablePfx) "wp_") ++ sq) } ∧
    (uploadDatabase run execLocal true sourceEnv targetEnv tempDir timestamp now
        false skipBackup).2 = DbUploadOutcome.fatal := by
  have hback : backupDatabaseSection run dbConfig backupsDir now =
      { trace := [getTablesCmdRemote dbConfig (optStr dbConfig.tablePfx),
          mysqldumpRemoteBase dbConfig ++ " > \"" ++ (backupsDir ++ "/database.sql") ++
            "\" && tar -czf \"" ++
            (backupsDir ++ "/" ++ generateBackupName "database" now) ++ "\" -C \"" ++
            backupsDir ++ "\" database.sql && rm \"" ++
            (backupsDir ++ "/database.sql") ++ "\""],
        warnedNoTables := true,
        dumpCmd := mysqldumpRemoteBase dbConfig ++ " > \"" ++
          (backupsDir ++ "/database.sql") ++ "\" && tar -czf \"" ++
          (backupsDir ++ "/" ++ generateBackupName "database" now) ++ "\" -C \"" ++
          backupsDir ++ "\" database.sql && rm \"" ++ (backupsDir ++ "/database.sql") ++
          "\"",
        dumpSucceeded := (run (mysqldumpRemoteBase dbConfig ++ " > \"" ++
          (backupsDir ++ "/database.sql") ++ "\" && tar -czf \"" ++
          (backupsDir ++ "/" ++ generateBackupName "database" now) ++ "\" -C \"" ++
          backupsDir ++ "\" database.sql && rm \"" ++ (backupsDir ++ "/database.sql") ++
          "\"")).code == 0 } := by
    unfold backupDatabaseSection
    simp [hpfx, hcode, hempty]
  have hdl : dumpLocalDatabase execLocal (some srcDb) localApp outputPath =
      { success := false,
        error := some ("No tables found with prefix " ++ sq ++
          (jsOr (optStr srcDb.tablePfx) "wp_") ++ sq) } := by
    have hne := jsOr_default_ne (optStr srcDb.tablePfx) "wp_" (by decide)
    simp [dumpLocalDatabase, hne, hl1, hl2]
  refine ⟨by rw [hback], by rw [hback], by rw [hback], hdl, ?_⟩
  unfold uploadDatabase
  rw [hs, ht, hssh]
  simp [hdumpfail]

theorem noTablesFound_behavior_witness :
    (backupDatabaseSection runOkW dbSrcW "/var/www/backups"
        ⟨2025, 1, 2, 3, 4, 5, 6⟩).warnedNoTables = true ∧
    dumpLocalDatabase okNoTablesExecW (some dbSrcW) none "/tmp/d.sql" =
      { success := false,
        error := some ("No tables found with prefix " ++ sq ++
          (jsOr (optStr dbSrcW.tablePfx) "wp_") ++ sq) } ∧
    (uploadDatabase runOkW okNoTablesExecW true srcEnvW tgtEnvW "/tmp" 7
        ⟨2025, 1, 2, 3, 4, 5, 6⟩ false true).2 = DbUploadOutcome.fatal := by
  have h := noTablesFound_behavior runOkW okNoTablesExecW dbSrcW dbSrcW dbSrcW dbTgtW
    srcEnvW tgtEnvW "/var/www/backups" "/tmp/d.sql" "/tmp" "" none 7
    ⟨2025, 1, 2, 3, 4, 5, 6⟩ true (by decide) (by decide) (by decide) rfl
    (by decide) rfl rfl rfl (by decide)
  exact ⟨h.1, h.2.2.2.1, h.2.2.2.2⟩

/-- Claim C5 evaluated at a failing input: when the remote
extract-and-delete-archive command exits non-zero, `runUpload` does delete the
orphaned remote archive, but it is not fatal — the phase finishes, reports
completion and proceeds to ownership reconciliation (probe and chown both
issued). -/
theorem extractFailure_continues :
    runUploadRemotePhase extractFailRunW true "/var/www" "a.tar.gz"
        (some "www-data") none =
      (["cd \"/var/www\" && tar -xzf \"a.tar.gz\" && rm \"a.tar.gz\"",
        "rm -f \"/var/www/a.tar.gz\"",
        checkOwnerCmd "/var/www" "www-data",
        chownOwnerCmd "/var/www" "www-data" "www-data"],
      UploadPhaseOutcome.finished true true true true) := by
  decide

end MoveSite
